import Mathlib

/-!
# Verification of the Health-Image-Classifier upload/classify contract

Shallow embedding of the two source files of the repository:

* `src/server/routes/classify.ts` — the multer upload middleware
  (file filter + 10 MiB size limit) and the `handleClassification`
  request handler that returns one of four canned predictions.
* `src/client/pages/Index.tsx` — the upload client's UI state and its
  `handleImageSelect` / `handleDrop` / `handleFileChange` /
  `analyzeImage` / `clearImage` actions.

Machine reals (the JS `number` confidences) are modelled as `ℚ`; the
wall clock is milliseconds since the Unix epoch as `Nat`; the platform
builtin `Date.prototype.toISOString` is modelled by an executable
Gregorian-calendar formatter `isoString`.
-/

namespace HealthClassifier

/-! ## Shared data model -/

/-- Model of JS `String.prototype.startsWith`. -/
def strStartsWith (s pat : String) : Bool :=
  pat.data.isPrefixOf s.data

/-- Severity tier of a classification result (`"low" | "medium" | "high"`). -/
inductive Severity where
  | low
  | medium
  | high
deriving DecidableEq, Repr

/-- One catalog entry of the mock, and also the client's
`PredictionResult` interface: `{condition, confidence, severity, description}`. -/
structure Prediction where
  condition : String
  confidence : ℚ
  severity : Severity
  description : String
deriving DecidableEq, Repr

/-- The server's `ClassificationResponse` interface: a prediction plus the
`timestamp` string attached by the handler. -/
structure ClassificationResponse extends Prediction where
  timestamp : String
deriving DecidableEq, Repr

/-! ## ISO-8601 timestamps: model of `new Date().toISOString()`

`toISOString` is a platform builtin, not repository code; it is modelled
executably: `isoString t` renders `t` milliseconds since the Unix epoch as
`YYYY-MM-DDTHH:mm:ss.sssZ` (expanded `+YYYYYY-…` beyond year 9999, as the
JS builtin does), using the standard civil-from-days Gregorian conversion. -/

/-- The decimal digit character for `n % 10`. -/
def digitChar (n : Nat) : Char :=
  Char.ofNat (48 + n % 10)

/-- Two-digit zero-padded decimal rendering (`String(n).padStart(2, "0")`). -/
def pad2 (n : Nat) : List Char :=
  [digitChar (n / 10), digitChar n]

/-- Three-digit zero-padded decimal rendering. -/
def pad3 (n : Nat) : List Char :=
  [digitChar (n / 100), digitChar (n / 10), digitChar n]

/-- Four-digit zero-padded decimal rendering. -/
def pad4 (n : Nat) : List Char :=
  [digitChar (n / 1000), digitChar (n / 100), digitChar (n / 10), digitChar n]

/-- Six-digit zero-padded decimal rendering (expanded ISO years). -/
def pad6 (n : Nat) : List Char :=
  [digitChar (n / 100000), digitChar (n / 10000), digitChar (n / 1000),
   digitChar (n / 100), digitChar (n / 10), digitChar n]

/-- A civil (proleptic Gregorian) calendar date. -/
structure Ymd where
  year : Nat
  month : Nat
  day : Nat
deriving DecidableEq, Repr

/-- Civil date from a count of days since 1970-01-01 (Gregorian).
Standard era-based conversion; all subtractions stay non-negative. -/
def civilFromDays (z : Nat) : Ymd :=
  let days := z + 719468
  let era := days / 146097
  let doe := days % 146097
  let yoe := (doe - doe / 1460 + doe / 36524 - doe / 146096) / 365
  let y := yoe + era * 400
  let doy := doe - (365 * yoe + yoe / 4 - yoe / 100)
  let mp := (5 * doy + 2) / 153
  let d := doy - (153 * mp + 2) / 5 + 1
  let m := if mp < 10 then mp + 3 else mp - 9
  { year := if m ≤ 2 then y + 1 else y, month := m, day := d }

/-- Character list of the ISO-8601 timestamp for `t` ms since the epoch. -/
def isoChars (t : Nat) : List Char :=
  let date := civilFromDays (t / 86400000)
  let ymd :=
    if date.year ≤ 9999 then pad4 date.year else '+' :: pad6 date.year
  ymd ++ '-' :: pad2 date.month ++ '-' :: pad2 date.day ++
    'T' :: pad2 (t / 3600000 % 24) ++ ':' :: pad2 (t / 60000 % 60) ++
    ':' :: pad2 (t / 1000 % 60) ++ '.' :: pad3 (t % 1000) ++ ['Z']

/-- Model of `new Date(t).toISOString()`. -/
def isoString (t : Nat) : String :=
  ⟨isoChars t⟩

/-- Decimal digit character test. -/
def isDigitChar (c : Char) : Bool :=
  48 ≤ c.toNat && c.toNat ≤ 57

/-- A character class of the ISO-8601 timestamp grammar. -/
inductive CClass where
  | lit (c : Char)
  | digit

/-- Does a character list match a list of character classes exactly? -/
def matchesClasses : List CClass → List Char → Bool
  | [], [] => true
  | .lit c :: ps, x :: xs => x == c && matchesClasses ps xs
  | .digit :: ps, x :: xs => isDigitChar x && matchesClasses ps xs
  | _, _ => false

/-- The `-MM-DDTHH:mm:ss.sssZ` tail of the timestamp grammar. -/
def isoTailClasses : List CClass :=
  [.lit '-', .digit, .digit, .lit '-', .digit, .digit,
   .lit 'T', .digit, .digit, .lit ':', .digit, .digit, .lit ':',
   .digit, .digit, .lit '.', .digit, .digit, .digit, .lit 'Z']

/-- Recognizer for the ISO-8601 combined date-time format emitted by
`toISOString`: `YYYY-MM-DDTHH:mm:ss.sssZ`, or the expanded-year form
`+YYYYYY-MM-DDTHH:mm:ss.sssZ`. -/
def isISO8601 (s : String) : Bool :=
  matchesClasses ([.digit, .digit, .digit, .digit] ++ isoTailClasses) s.data ||
  matchesClasses ([.lit '+', .digit, .digit, .digit, .digit, .digit, .digit]
    ++ isoTailClasses) s.data

/-! ## Server: `src/server/routes/classify.ts` -/

/-- A multipart upload as multer presents it to the handler
(`req.file`: metadata plus the in-memory buffer). -/
structure UploadedFile where
  fieldname : String
  originalname : String
  mimetype : String
  size : Nat
  buffer : List Nat
deriving DecidableEq, Repr

/-- The slice of the express request the route reads: `req.file`. -/
structure Req where
  file : Option UploadedFile
deriving DecidableEq, Repr

/-- `limits: { fileSize: 10 * 1024 * 1024 }` — the 10 MiB upload cap. -/
def fileSizeLimit : Nat := 10 * 1024 * 1024

/-- Outcome of multer's `fileFilter` callback: `cb(null, true)` accepts,
`cb(new Error(msg), false)` rejects with that error. -/
inductive FilterResult where
  | accept
  | reject (message : String)
deriving DecidableEq, Repr

/-- The route's `fileFilter`: accept iff `file.mimetype.startsWith("image/")`,
else reject with `new Error("Only image files are allowed")`. -/
def fileFilter (file : UploadedFile) : FilterResult :=
  if strStartsWith file.mimetype "image/" then
    .accept
  else
    .reject "Only image files are allowed"

/-- A JS exception value: an `Error` object (with a `.message`) or any
other thrown value. -/
inductive JsError where
  | errorObj (message : String)
  | nonError
deriving DecidableEq, Repr

/-- `error instanceof Error ? error.message : "Unknown error"`. -/
def errMessage : JsError → String
  | .errorObj m => m
  | .nonError => "Unknown error"

/-- JSON bodies the route can emit. -/
inductive Body where
  /-- `res.json(response)` with a full `ClassificationResponse`. -/
  | classification (c : ClassificationResponse)
  /-- `res.json({...undefined, timestamp})` — only reachable if the random
  index fell outside the catalog, which `Math.random`'s contract forbids. -/
  | timestampOnly (timestamp : String)
  /-- `{ error: msg }`. -/
  | errorObj (error : String)
  /-- `{ error: msg, details: d }`. -/
  | errorDetails (error : String) (details : String)
deriving DecidableEq, Repr

/-- An HTTP response: status code and JSON body. `res.json(x)` with no
explicit status is status 200. -/
structure Response where
  status : Nat
  body : Body
deriving DecidableEq, Repr

/-- Observable side effects of one handler run. -/
inductive Effect where
  /-- `await new Promise(resolve => setTimeout(resolve, ms))`. -/
  | delay (ms : Nat)
  /-- The `Math.random()` draw used to select a catalog entry. -/
  | randomDraw
  /-- `console.error(msg, error)`. -/
  | logError (message : String)
deriving DecidableEq, Repr

/-- The nondeterministic inputs of one request: the `Math.random()` draw,
the request-start clock `t0` (ms since epoch), how much past the 2000 ms
timer the clock has advanced when `new Date()` runs, and an optional
exception injected at the processing step. -/
structure Env where
  rand : ℚ
  t0 : Nat
  extraDelay : Nat
  fault : Option JsError
deriving Repr

/-- The `mockPredictions` catalog: four fixed entries. -/
def mockPredictions : List Prediction :=
  [{ condition := "Melanoma"
     confidence := 0.87
     severity := .high
     description := "Detected suspicious pigmented lesion. Recommend immediate dermatological consultation for further evaluation." },
   { condition := "Benign Nevus"
     confidence := 0.92
     severity := .low
     description := "Appears to be a benign mole. Continue regular skin monitoring and annual dermatological check-ups." },
   { condition := "Seborrheic Keratosis"
     confidence := 0.78
     severity := .low
     description := "Common benign skin growth. No immediate treatment required unless cosmetically bothersome." },
   { condition := "Basal Cell Carcinoma"
     confidence := 0.83
     severity := .medium
     description := "Possible skin cancer detected. Recommend dermatological evaluation for confirmation and treatment planning." }]

/-- `Math.floor(Math.random() * mockPredictions.length)` with draw `r`. -/
def randomIndex (r : ℚ) : Nat :=
  (⌊r * 4⌋).toNat

/-- The `handleClassification` request handler. Missing file → 400 error
body with no further processing; injected exception → caught, logged,
500 error body; otherwise 2000 ms delay, random catalog selection, and a
200 response carrying the entry plus the current ISO timestamp. -/
def handleClassification (env : Env) (req : Req) : Response × List Effect :=
  if req.file.isNone then
    ({ status := 400, body := .errorObj "No image file provided" }, [])
  else
    match env.fault with
    | some e =>
      ({ status := 500,
         body := .errorDetails "Failed to process image classification"
           (errMessage e) },
       [.logError "Classification error:"])
    | none =>
      let ts := isoString (env.t0 + 2000 + env.extraDelay)
      match mockPredictions.get? (randomIndex env.rand) with
      | some p =>
        ({ status := 200, body := .classification { toPrediction := p, timestamp := ts } },
         [.delay 2000, .randomDraw])
      | none =>
        ({ status := 200, body := .timestampOnly ts },
         [.delay 2000, .randomDraw])

/-- Result of running the route (`uploadMiddleware` then the handler). -/
inductive PipelineResult where
  /-- Multer aborted the stream: `MulterError("LIMIT_FILE_SIZE")`,
  message `"File too large"`; the handler never ran. -/
  | sizeLimitError (message : String)
  /-- The `fileFilter` rejected the field; the handler never ran. -/
  | fileFilterError (message : String)
  /-- The middleware passed the request through and the handler ran. -/
  | handled (resp : Response) (effects : List Effect)
deriving DecidableEq, Repr

/-- `POST /api/classify`: `upload.single("image")` then
`handleClassification`. Multer consults `fileFilter` when the file field
arrives, then enforces `limits.fileSize` while streaming the content;
either rejection fires before the handler body. -/
def classifyRoute (env : Env) (upload : Option UploadedFile) : PipelineResult :=
  match upload with
  | none =>
    let r := handleClassification env { file := none }
    .handled r.1 r.2
  | some f =>
    match fileFilter f with
    | .reject msg => .fileFilterError msg
    | .accept =>
      if f.size > fileSizeLimit then
        .sizeLimitError "File too large"
      else
        let r := handleClassification env { file := some f }
        .handled r.1 r.2

/-! ## Client: `src/client/pages/Index.tsx` -/

/-- A browser `File` as the client reads it: `name`, `type` (here
`mimeType`, since `type` is reserved in Lean), and content bytes. -/
structure WebFile where
  name : String
  mimeType : String
  bytes : List Nat
deriving DecidableEq, Repr

/-- The base64 alphabet. -/
def base64Chars : List Char :=
  "ABCDEFGHIJKLMNOPQRSTUVWXYZabcdefghijklmnopqrstuvwxyz0123456789+/".data

/-- The base64 character for the 6-bit value `n % 64`. -/
def b64Char (n : Nat) : Char :=
  base64Chars.getD (n % 64) 'A'

/-- Standard base64 of a byte list, three bytes to four characters. -/
def base64Encode : List Nat → List Char
  | [] => []
  | [a] => [b64Char (a / 4), b64Char (a % 4 * 16), '=', '=']
  | [a, b] => [b64Char (a / 4), b64Char (a % 4 * 16 + b / 16), b64Char (b % 16 * 4), '=']
  | a :: b :: c :: rest =>
    b64Char (a / 4) :: b64Char (a % 4 * 16 + b / 16) ::
      b64Char (b % 16 * 4 + c / 64) :: b64Char (c % 64) :: base64Encode rest

/-- The `FileReader.readAsDataURL` result the preview is set to. -/
def dataURL (f : WebFile) : String :=
  "data:" ++ f.mimeType ++ ";base64," ++ ⟨base64Encode f.bytes⟩

/-- The five `useState` cells of the `Index` component. -/
structure ClientState where
  selectedImage : Option WebFile
  imagePreview : Option String
  isAnalyzing : Bool
  prediction : Option Prediction
  isDragOver : Bool
deriving DecidableEq, Repr

/-- `handleImageSelect`: store the file, clear any previous prediction,
and (once the reader fires) set the preview to the file's data URL. -/
def handleImageSelect (f : WebFile) (s : ClientState) : ClientState :=
  { s with selectedImage := some f, prediction := none,
           imagePreview := some (dataURL f) }

/-- `handleDrop`: always clears the drag-over highlight; selects the first
dropped file only when its `type` starts with `"image/"`. -/
def handleDrop (files : List WebFile) (s : ClientState) : ClientState :=
  let s1 := { s with isDragOver := false }
  match files with
  | f :: _ =>
    if strStartsWith f.mimeType "image/" then handleImageSelect f s1 else s1
  | [] => s1

/-- `handleFileChange`: selects the first picked file, with no type check. -/
def handleFileChange (files : List WebFile) (s : ClientState) : ClientState :=
  match files with
  | f :: _ => handleImageSelect f s
  | [] => s

/-- What the `fetch('/api/classify', …)` call in `analyzeImage` can come
back with: a response whose JSON parses, a response whose body fails
`response.json()`, or a rejected fetch promise. -/
inductive FetchOutcome where
  | response (status : Nat) (body : ClassificationResponse)
  | badJson (status : Nat)
  | networkError
deriving DecidableEq, Repr

/-- `Response.ok`: status in the range 200–299. -/
def respOk (status : Nat) : Bool :=
  200 ≤ status && status ≤ 299

/-- The synthesized fallback result set by the `catch` branch. -/
def analysisErrorPrediction : Prediction :=
  { condition := "Analysis Error"
    confidence := 0
    severity := .medium
    description := "Unable to analyze image. Please try again or contact support if the problem persists." }

/-- Observable client side effects. -/
inductive ClientEffect where
  /-- The `POST /api/classify` fetch was issued. -/
  | fetchRequest
deriving DecidableEq, Repr

/-- `analyzeImage`: early return when no image is selected; otherwise set
the analyzing flag, issue the fetch, store either the payload or the
fallback, and clear the flag in the `finally` branch. -/
def analyzeImage (outcome : FetchOutcome) (s : ClientState) :
    ClientState × List ClientEffect :=
  match s.selectedImage with
  | none => (s, [])
  | some _ =>
    let s1 := { s with isAnalyzing := true }
    let s2 :=
      match outcome with
      | .response st body =>
        if respOk st then { s1 with prediction := some body.toPrediction }
        else { s1 with prediction := some analysisErrorPrediction }
      | .badJson _ => { s1 with prediction := some analysisErrorPrediction }
      | .networkError => { s1 with prediction := some analysisErrorPrediction }
    ({ s2 with isAnalyzing := false }, [.fetchRequest])

/-- `clearImage`: null out the image, the preview, and the prediction. -/
def clearImage (s : ClientState) : ClientState :=
  { s with selectedImage := none, imagePreview := none, prediction := none }

/-! ## Concrete fixtures used by the witness theorems -/

/-- A small PNG upload. -/
def pngUpload : UploadedFile :=
  { fieldname := "image", originalname := "scan.png", mimetype := "image/png",
    size := 4, buffer := [137, 80, 78, 71] }

/-- A PDF upload (non-image mimetype). -/
def pdfUpload : UploadedFile :=
  { fieldname := "image", originalname := "doc.pdf",
    mimetype := "application/pdf", size := 3, buffer := [1, 2, 3] }

/-- An image upload of exactly 10 MiB. -/
def boundaryUpload : UploadedFile :=
  { fieldname := "image", originalname := "big.jpg", mimetype := "image/jpeg",
    size := 10 * 1024 * 1024, buffer := [] }

/-- An image upload one byte over 10 MiB. -/
def oversizeUpload : UploadedFile :=
  { fieldname := "image", originalname := "huge.jpg", mimetype := "image/jpeg",
    size := 10 * 1024 * 1024 + 1, buffer := [] }

/-- A fault-free request environment with draw 1/2. -/
def sampleEnv : Env :=
  { rand := 1/2, t0 := 1728000000000, extraDelay := 5, fault := none }

/-- An environment whose processing step throws `Error("boom")`. -/
def faultEnv : Env :=
  { rand := 0, t0 := 0, extraDelay := 0, fault := some (.errorObj "boom") }

/-- A browser-side PNG file. -/
def sampleWebFile : WebFile :=
  { name := "a.png", mimeType := "image/png", bytes := [1, 2, 3] }

/-- A browser-side text file (non-image). -/
def textWebFile : WebFile :=
  { name := "a.txt", mimeType := "text/plain", bytes := [104, 105] }

/-- A client state with an image selected and nothing else set. -/
def selectedState : ClientState :=
  { selectedImage := some sampleWebFile, imagePreview := some (dataURL sampleWebFile),
    isAnalyzing := false, prediction := none, isDragOver := false }

/-- The empty client state. -/
def emptyState : ClientState :=
  { selectedImage := none, imagePreview := none, isAnalyzing := false,
    prediction := none, isDragOver := false }

/-- A canned server payload for client-side witnesses. -/
def sampleServerBody : ClassificationResponse :=
  { condition := "Benign Nevus", confidence := 0.92, severity := .low,
    description := "d", timestamp := "2024-10-04T00:00:00.000Z" }

/-! ## Helper lemmas -/

/-- `digitChar` always yields a decimal digit character. -/
theorem isDigitChar_digitChar (n : Nat) : isDigitChar (digitChar n) = true := by
  have h : n % 10 < 10 := Nat.mod_lt _ (by norm_num)
  unfold digitChar
  revert h
  generalize n % 10 = k
  intro h
  interval_cases k <;> decide

/-- Every timestamp the model emits is in the recognized ISO-8601 shape. -/
theorem isISO8601_isoString (t : Nat) : isISO8601 (isoString t) = true := by
  unfold isoString isoChars isISO8601
  by_cases hy : (civilFromDays (t / 86400000)).year ≤ 9999
  · simp [hy, pad4, pad2, pad3, isoTailClasses, matchesClasses,
      isDigitChar_digitChar]
  · simp [hy, pad6, pad2, pad3, isoTailClasses, matchesClasses,
      isDigitChar_digitChar]

/-- With a draw in `[0, 1)`, the selected index is inside the catalog. -/
theorem randomIndex_lt_four (r : ℚ) (_h0 : 0 ≤ r) (h1 : r < 1) :
    randomIndex r < 4 := by
  unfold randomIndex
  have h4 : r * 4 < 4 := by nlinarith
  have hfl : (⌊r * 4⌋ : ℤ) < 4 := Int.floor_lt.mpr (by exact_mod_cast h4)
  omega

/-- Every catalog entry's confidence is strictly between 0 and 1. -/
theorem confidence_bounds_of_mem {p : Prediction} (hp : p ∈ mockPredictions) :
    0 < p.confidence ∧ p.confidence < 1 := by
  simp only [mockPredictions, List.mem_cons, List.not_mem_nil, or_false] at hp
  rcases hp with h | h | h | h <;> subst h <;> norm_num

/-! ## Claim theorems -/

/-- C1: every request that reaches the handler with a file present and no
injected exception gets a 200 response whose body is one of the four
fixed catalog entries (the catalog listing exactly the four condition
names, with two low-, one medium-, and one high-severity entry), with
confidence strictly between 0 and 1, severity among low/medium/high, and
an ISO-8601 timestamp representing a time no earlier than request start. -/
theorem C1_success_response_from_catalog (env : Env) (req : Req)
    (f : UploadedFile) (hf : req.file = some f) (hfault : env.fault = none)
    (h0 : 0 ≤ env.rand) (h1 : env.rand < 1) :
    (handleClassification env req).1.status = 200 ∧
    (∃ p ∈ mockPredictions,
      (handleClassification env req).1.body =
        .classification ⟨p, isoString (env.t0 + 2000 + env.extraDelay)⟩ ∧
      0 < p.confidence ∧ p.confidence < 1 ∧
      (p.severity = .low ∨ p.severity = .medium ∨ p.severity = .high)) ∧
    mockPredictions.map Prediction.condition =
      ["Melanoma", "Benign Nevus", "Seborrheic Keratosis", "Basal Cell Carcinoma"] ∧
    mockPredictions.countP (fun p => p.severity == Severity.low) = 2 ∧
    mockPredictions.countP (fun p => p.severity == Severity.medium) = 1 ∧
    mockPredictions.countP (fun p => p.severity == Severity.high) = 1 ∧
    isISO8601 (isoString (env.t0 + 2000 + env.extraDelay)) = true ∧
    env.t0 ≤ env.t0 + 2000 + env.extraDelay := by
  have hidx : randomIndex env.rand < 4 := randomIndex_lt_four _ h0 h1
  have hlen : randomIndex env.rand < mockPredictions.length := by
    simpa [mockPredictions] using hidx
  have hget := List.get?_eq_get hlen
  rw [List.get?_eq_getElem?] at hget
  set p := mockPredictions.get ⟨randomIndex env.rand, hlen⟩ with hpdef
  have hmem : p ∈ mockPredictions := List.get_mem _ _ _
  have hconf := confidence_bounds_of_mem hmem
  refine ⟨?_, ⟨p, hmem, ?_, hconf.1, hconf.2, ?_⟩, rfl, rfl, rfl, rfl,
    isISO8601_isoString _, by omega⟩
  · simp [handleClassification, hf, hfault, hget]
  · simp [handleClassification, hf, hfault, hget]
  · cases hsev : p.severity <;> simp

/-- C1 witness: a concrete request with a file, draw 1/2, no fault. -/
theorem C1_success_response_from_catalog_witness :
    (handleClassification sampleEnv { file := some pngUpload }).1.status = 200 :=
  (C1_success_response_from_catalog sampleEnv { file := some pngUpload }
    pngUpload rfl rfl (by norm_num [sampleEnv]) (by norm_num [sampleEnv])).1

/-- C2: a request with no file gets exactly status 400 with body
`{ error: "No image file provided" }`, and the handler performs no
effects at all (no delay, no random draw, hence no success response). -/
theorem C2_missing_file_400 (env : Env) :
    handleClassification env { file := none } =
      ({ status := 400, body := .errorObj "No image file provided" }, []) := by
  simp [handleClassification]

/-- C3: a file whose mimetype does not start with `"image/"` makes the
route stop at the file filter with the error message
`"Only image files are allowed"` (the handler never runs), while a file
whose mimetype does start with `"image/"` is accepted by the filter. -/
theorem C3_file_filter_rejects_non_images (env : Env) (f : UploadedFile) :
    (strStartsWith f.mimetype "image/" = false →
      classifyRoute env (some f) =
        .fileFilterError "Only image files are allowed") ∧
    (strStartsWith f.mimetype "image/" = true → fileFilter f = .accept) := by
  constructor <;> intro h <;> simp [classifyRoute, fileFilter, h]

/-- C3 witness: a PDF upload is filter-rejected; a PNG is accepted. -/
theorem C3_file_filter_rejects_non_images_witness :
    classifyRoute sampleEnv (some pdfUpload) =
      .fileFilterError "Only image files are allowed" ∧
    fileFilter pngUpload = .accept :=
  ⟨(C3_file_filter_rejects_non_images sampleEnv pdfUpload).1 (by decide),
   (C3_file_filter_rejects_non_images sampleEnv pngUpload).2 (by decide)⟩

/-- C4: an exception thrown during processing of a request that has a
file is caught and turned into status 500 with body
`{ error: "Failed to process image classification", details }`, where
`details` is the exception's `.message` whenever it is an `Error`. -/
theorem C4_exception_caught_500 (env : Env) (req : Req) (e : JsError)
    (hf : req.file.isSome = true) (he : env.fault = some e) :
    (handleClassification env req).1 =
      { status := 500,
        body := .errorDetails "Failed to process image classification"
          (errMessage e) } ∧
    (∀ m, e = .errorObj m → errMessage e = m) := by
  obtain ⟨f, hf'⟩ := Option.isSome_iff_exists.mp hf
  constructor
  · simp [handleClassification, hf', he]
  · rintro m rfl
    rfl

/-- C4 witness: a thrown `Error("boom")` yields the 500 body with
details `"boom"`. -/
theorem C4_exception_caught_500_witness :
    (handleClassification faultEnv { file := some pngUpload }).1 =
      { status := 500,
        body := .errorDetails "Failed to process image classification"
          (errMessage (.errorObj "boom")) } :=
  (C4_exception_caught_500 faultEnv { file := some pngUpload }
    (.errorObj "boom") rfl rfl).1

/-- C5: with an image selected, the analyze action stores the fallback
`analysisErrorPrediction` ("Analysis Error", confidence 0, severity
medium) when the fetch rejects or the response status is not ok, and
stores the server's payload when the response is ok. -/
theorem C5_fallback_or_payload (s : ClientState) (o : FetchOutcome)
    (hs : s.selectedImage.isSome = true) :
    (o = .networkError →
      (analyzeImage o s).1.prediction = some analysisErrorPrediction) ∧
    (∀ st b, o = .response st b → respOk st = false →
      (analyzeImage o s).1.prediction = some analysisErrorPrediction) ∧
    (∀ st b, o = .response st b → respOk st = true →
      (analyzeImage o s).1.prediction = some b.toPrediction) := by
  obtain ⟨f, hf⟩ := Option.isSome_iff_exists.mp hs
  refine ⟨?_, ?_, ?_⟩
  · rintro rfl
    simp [analyzeImage, hf]
  · rintro st b rfl hok
    simp [analyzeImage, hf, hok]
  · rintro st b rfl hok
    simp [analyzeImage, hf, hok]

/-- C5 witness: an HTTP 500 response yields the fallback prediction. -/
theorem C5_fallback_or_payload_witness :
    (analyzeImage (.response 500 sampleServerBody) selectedState).1.prediction =
      some analysisErrorPrediction :=
  (C5_fallback_or_payload selectedState (.response 500 sampleServerBody)
    rfl).2.1 500 sampleServerBody rfl (by decide)


/-- C6: for an image-typed upload, a file of exactly 10 MiB passes the
middleware (the handler runs), and a file of one byte more — or any
larger size — is stopped by the multer size limit before the handler. -/
theorem C6_size_boundary (env : Env) (f : UploadedFile)
    (himg : strStartsWith f.mimetype "image/" = true) :
    (f.size = 10 * 1024 * 1024 →
      classifyRoute env (some f) =
        .handled (handleClassification env { file := some f }).1
          (handleClassification env { file := some f }).2) ∧
    (10 * 1024 * 1024 + 1 ≤ f.size →
      classifyRoute env (some f) = .sizeLimitError "File too large") := by
  constructor
  · intro hsz
    simp [classifyRoute, fileFilter, himg, fileSizeLimit, hsz]
  · intro hsz
    have hgt : f.size > fileSizeLimit := by
      unfold fileSizeLimit
      omega
    simp [classifyRoute, fileFilter, himg, hgt]

/-- C6 witness: the 10 MiB image is handled; the 10 MiB + 1 image is
size-rejected. -/
theorem C6_size_boundary_witness :
    classifyRoute sampleEnv (some boundaryUpload) =
      .handled (handleClassification sampleEnv { file := some boundaryUpload }).1
        (handleClassification sampleEnv { file := some boundaryUpload }).2 ∧
    classifyRoute sampleEnv (some oversizeUpload) =
      .sizeLimitError "File too large" :=
  ⟨(C6_size_boundary sampleEnv boundaryUpload (by decide)).1 rfl,
   (C6_size_boundary sampleEnv oversizeUpload (by decide)).2 (by decide)⟩

/-- C7: the uploaded bytes do not interfere with the result: two requests
whose files differ only in their buffer produce, under the same random
draw, clock, and fault state, identical response bodies. -/
theorem C7_body_independent_of_image_bytes (env : Env) (f : UploadedFile)
    (buf : List Nat) :
    (handleClassification env { file := some { f with buffer := buf } }).1.body =
      (handleClassification env { file := some f }).1.body := rfl

/-- C8: `clearImage` always resets to the empty state: no selected image,
no preview, and no prediction remain. -/
theorem C8_clear_resets (s : ClientState) :
    (clearImage s).selectedImage = none ∧ (clearImage s).imagePreview = none ∧
      (clearImage s).prediction = none :=
  ⟨rfl, rfl, rfl⟩

/-- C9: dropping a first file whose type does not start with `"image/"`
leaves the selected image, the preview, and the prediction unchanged,
while the file-picker change handler accepts any first file as the
selected image regardless of its type. -/
theorem C9_drop_filtered_picker_permissive (s : ClientState) (f : WebFile)
    (rest : List WebFile) :
    (strStartsWith f.mimeType "image/" = false →
      (handleDrop (f :: rest) s).selectedImage = s.selectedImage ∧
      (handleDrop (f :: rest) s).imagePreview = s.imagePreview ∧
      (handleDrop (f :: rest) s).prediction = s.prediction) ∧
    (handleFileChange (f :: rest) s).selectedImage = some f := by
  constructor
  · intro h
    simp [handleDrop, h]
  · simp [handleFileChange, handleImageSelect]

/-- C9 witness: dropping a text file changes none of the three cells, and
picking the same text file selects it anyway. -/
theorem C9_drop_filtered_picker_permissive_witness :
    ((handleDrop [textWebFile] emptyState).selectedImage =
        emptyState.selectedImage ∧
      (handleDrop [textWebFile] emptyState).imagePreview =
        emptyState.imagePreview ∧
      (handleDrop [textWebFile] emptyState).prediction =
        emptyState.prediction) ∧
    (handleFileChange [textWebFile] emptyState).selectedImage =
      some textWebFile :=
  ⟨(C9_drop_filtered_picker_permissive emptyState textWebFile []).1 (by decide),
   (C9_drop_filtered_picker_permissive emptyState textWebFile []).2⟩

/-- C10: whatever the fetch outcome, an analyze run that got past the
guard ends with the analyzing flag false (the `finally` branch), and when
no image is selected the action returns the state unchanged and issues no
request. -/
theorem C10_analyzing_flag_cleared (s : ClientState) (o : FetchOutcome) :
    (s.selectedImage.isSome = true →
      (analyzeImage o s).1.isAnalyzing = false) ∧
    (s.selectedImage = none → analyzeImage o s = (s, [])) := by
  constructor
  · intro h
    obtain ⟨f, hf⟩ := Option.isSome_iff_exists.mp h
    cases o with
    | response st b =>
      by_cases hok : respOk st = true
      · simp [analyzeImage, hf, hok]
      · simp [analyzeImage, hf, hok]
    | badJson st => simp [analyzeImage, hf]
    | networkError => simp [analyzeImage, hf]
  · intro h
    simp [analyzeImage, h]

/-- C10 witness: a network error on the selected state ends not
analyzing, and analyzing the empty state is a no-op. -/
theorem C10_analyzing_flag_cleared_witness :
    (analyzeImage .networkError selectedState).1.isAnalyzing = false ∧
    analyzeImage .networkError emptyState = (emptyState, []) :=
  ⟨(C10_analyzing_flag_cleared selectedState .networkError).1 rfl,
   (C10_analyzing_flag_cleared emptyState .networkError).2 rfl⟩

end HealthClassifier
